import Mathlib

/-!
Shallow embedding of the client-side pipeline orchestrator of
`src/frontend/src/App.js` (the `YoutubePipeline` component).

React `useState` fields become fields of `AppState`; the socket.io event
handlers registered in the mount effect become `handleEvent`; the command
functions (`executeStage`, `stopExecution`, `shutdownAll`,
`handleInputSubmit`, `startFullPipeline`) become functions from `AppState`
to `AppState` paired with the list of messages emitted on the socket.
The socket being connected (`socket` non-null) is an explicit boolean
argument. Log timestamps (`new Date()`) are wall-clock and not modelled;
a log entry keeps its `message` and `type` fields.
-/

namespace AutoFX

/-- Stage lifecycle status strings used by the component:
`idle`, `running`, `completed`, `error`, `stopped`. -/
inductive Status where
  | idle
  | running
  | completed
  | error
  | stopped
deriving DecidableEq

/-- One entry of `executionStates`: `{ progress, status }`. -/
structure ExecState where
  progress : Nat
  status : Status
deriving DecidableEq

/-- One entry of `logs`: `{ message, type }` (timestamp unmodelled). -/
structure LogEntry where
  message : String
  type : String
deriving DecidableEq

/-- A stage descriptor from the catalogs (`mainStages` / `pipelineStages`):
id, display name and script file (the icon is presentation-only). -/
structure Stage where
  id : String
  name : String
  file : String
deriving DecidableEq

/-- The `executionStates` object: stage id keyed map, kept as an
association list in insertion order (JS object key order). -/
abbrev StateStore := List (String × ExecState)

/-- JS property read `prev[stageId]`: first (unique) matching key. -/
def getEntry : StateStore → String → Option ExecState
  | [], _ => none
  | (k, v) :: rest, sid => if k = sid then some v else getEntry rest sid

/-- Lookup with default, `prev[stageId] || { progress: 0, status: 'idle' }`. -/
def getOrDefault (es : StateStore) (sid : String) : ExecState :=
  (getEntry es sid).getD ⟨0, Status.idle⟩

/-- JS spread update `{ ...prev, [stageId]: v }`: replaces the value at an
existing key in place, appends a new key at the end. -/
def setEntry : StateStore → String → ExecState → StateStore
  | [], sid, v => [(sid, v)]
  | (k, w) :: rest, sid, v =>
      if k = sid then (sid, v) :: rest else (k, w) :: setEntry rest sid v

/-- The component state: `selectedStage`, `logs`, `executionStates`,
`currentInput`, `waitingForInput`, `isAutoRunning`. -/
structure AppState where
  selectedStage : Option String
  logs : List LogEntry
  executionStates : StateStore
  currentInput : String
  waitingForInput : Option String
  isAutoRunning : Bool
deriving DecidableEq

/-- Initial component state. -/
def initState : AppState :=
  { selectedStage := none
    logs := []
    executionStates := []
    currentInput := ""
    waitingForInput := none
    isAutoRunning := false }

/-- Source `addLog(message, type)`: appends one entry to `logs`. -/
def addLog (s : AppState) (message : String) (type : String) : AppState :=
  { s with logs := s.logs ++ [⟨message, type⟩] }

/-- Source `updateProgress(stageId, status)`: reads the current entry (default
idle/0), sets progress to `Math.min(current.progress + 5, 95)` and the
given status. -/
def updateProgress (s : AppState) (stageId : String) (status : Status) : AppState :=
  let current := getOrDefault s.executionStates stageId
  let newProgress := min (current.progress + 5) 95
  { s with executionStates := setEntry s.executionStates stageId ⟨newProgress, status⟩ }

/-- Inbound socket events, with their payload fields. The `status` of
`execution_complete` and the `type` of `script_output` arrive from the
backend as free-form strings. -/
inductive InEvent where
  | connected
  | script_output (stage_id output type : String)
  | request_input (stage_id prompt : String)
  | execution_started (stage_id : String)
  | execution_complete (stage_id status : String)
  | execution_error (stage_id error : String)
  | input_sent (stage_id input : String)
deriving DecidableEq

/-- Outbound socket messages (`socket.emit`). -/
inductive OutMsg where
  | execute_stage (stage_id script_file : String)
  | stop_stage (stage_id : String)
  | send_input (stage_id input : String)
deriving DecidableEq

/-- The event handlers registered on the socket in the mount effect,
one case per `newSocket.on(...)` registration. -/
def handleEvent (s : AppState) : InEvent → AppState
  | InEvent.connected => addLog s "Connected to backend" "system"
  | InEvent.script_output sid out ty =>
      updateProgress (addLog s out ty) sid Status.running
  | InEvent.request_input sid prompt =>
      { addLog s prompt "input" with waitingForInput := some sid }
  | InEvent.execution_started sid =>
      let s1 := addLog s ("Starting execution of " ++ sid ++ "...") "system"
      { s1 with executionStates := setEntry s1.executionStates sid ⟨0, Status.running⟩ }
  | InEvent.execution_complete sid st =>
      let status :=
        if st = "success" then Status.completed
        else if st = "stopped" then Status.stopped
        else Status.error
      let s1 := { s with executionStates := setEntry s.executionStates sid ⟨100, status⟩ }
      addLog s1
        ("Execution " ++ (if st = "success" then "completed successfully" else "failed") ++ "!")
        (if st = "success" then "success" else "error")
  | InEvent.execution_error sid err =>
      let s1 := addLog s ("Error: " ++ err) "error"
      { s1 with executionStates := setEntry s1.executionStates sid ⟨0, Status.error⟩ }
  | InEvent.input_sent _ inp => addLog s ("> " ++ inp) "user"

/-- Source `executeStage(stage)`: with no socket, logs "Not connected to backend"
and sends nothing; otherwise selects the stage and emits one
`execute_stage` message. -/
def executeStage (connected : Bool) (stage : Stage) (s : AppState) :
    AppState × List OutMsg :=
  if !connected then (addLog s "Not connected to backend" "error", [])
  else ({ s with selectedStage := some stage.id },
        [OutMsg.execute_stage stage.id stage.file])

/-- Source `stopExecution()`: returns silently unless connected and a stage is
selected; otherwise emits one `stop_stage`, appends a "Stop requested..."
entry, then clears all logs, clears the pending input and marks the
selected stage stopped/0. -/
def stopExecution (connected : Bool) (s : AppState) : AppState × List OutMsg :=
  match connected, s.selectedStage with
  | true, some sid =>
      let s1 := addLog s "Stop requested..." "system"
      let s2 := { s1 with logs := [] }
      let s3 := { s2 with waitingForInput := none }
      let s4 :=
        { s3 with executionStates := setEntry s3.executionStates sid ⟨0, Status.stopped⟩ }
      (s4, [OutMsg.stop_stage sid])
  | _, _ => (s, [])

/-- Source `shutdownAll()`: returns silently with no socket; with no running
stage logs a single no-op notice; otherwise emits one `stop_stage` per
running stage id, logs a count, clears the pending input and the
auto-running guard, and marks each targeted stage stopped/0. -/
def shutdownAll (connected : Bool) (s : AppState) : AppState × List OutMsg :=
  if !connected then (s, [])
  else
    let runningIds :=
      (s.executionStates.filter (fun p => p.2.status = Status.running)).map (fun p => p.1)
    if runningIds.isEmpty then
      (addLog s "No running stages to stop." "system", [])
    else
      let msgs := runningIds.map OutMsg.stop_stage
      let s1 :=
        addLog s ("Shutdown requested for " ++ toString runningIds.length ++ " stage(s).")
          "system"
      let s2 := { s1 with waitingForInput := none, isAutoRunning := false }
      let s3 :=
        { s2 with
          executionStates :=
            runningIds.foldl (fun es id => setEntry es id ⟨0, Status.stopped⟩)
              s2.executionStates }
      (s3, msgs)

/-- JS `String.prototype.trim`: strips leading and trailing whitespace,
modelled over the underlying character list. -/
def jsTrim (s : String) : String :=
  String.mk (((s.data.dropWhile Char.isWhitespace).reverse.dropWhile
    Char.isWhitespace).reverse)

/-- Source `handleInputSubmit(e)`: sends the trimmed input only when it is
non-empty, a socket exists and an input request is pending; then clears
the input field and the pending slot. Otherwise nothing happens. -/
def handleInputSubmit (connected : Bool) (s : AppState) : AppState × List OutMsg :=
  if jsTrim s.currentInput ≠ "" && connected then
    match s.waitingForInput with
    | some sid =>
        ({ s with currentInput := "", waitingForInput := none },
         [OutMsg.send_input sid (jsTrim s.currentInput)])
    | none => (s, [])
  else (s, [])

/-- Source `clearLogs()`: wipes the log sequence and the execution state store. -/
def clearLogs (s : AppState) : AppState :=
  { s with logs := [], executionStates := [] }

/-- The ordered pipeline catalog (`pipelineStages`), ids and script files
as in the source; icons are presentation-only. -/
def pipelineStages : List Stage :=
  [ ⟨ "get-scripts", "Get Scripts", "get_scripts.py"⟩,
    ⟨ "srt-generator", "SRT Generator", "srt_generator.py"⟩,
    ⟨ "image-suggestions", "Image Suggestions", "suggestion_generator.py"⟩,
    ⟨ "image-generator", "Image Generator", "image_generator.py"⟩,
    ⟨ "image-render", "Image Render", "make_and_render.py"⟩ ]

/-- The await inside `executeStageAndWait`: inbound events are processed
one at a time by the registered handlers (`handleEvent`); the one-shot
`handleComplete` observer resolves on the first `execution_complete`
whose `stage_id` matches, after the permanent handler (registered
earlier) has run. Returns the state after that terminal event, the
terminal status string, and the unconsumed events; `none` when no
matching terminal event ever arrives (the promise stays pending). -/
def awaitComplete (stageId : String) : List InEvent → AppState →
    Option (AppState × String × List InEvent)
  | [], _ => none
  | e :: rest, s =>
      let s1 := handleEvent s e
      match e with
      | InEvent.execution_complete sid st =>
          if sid = stageId then some (s1, st, rest)
          else awaitComplete stageId rest s1
      | _ => awaitComplete stageId rest s1

/-- The `for` loop of `startFullPipeline`: for each stage, select it,
run `executeStageAndWait` (an `execute_stage` emission followed by the
await above), and halt on the first non-success outcome. Accumulates the
emitted messages; `none` when an await never resolves. -/
def pipelineLoop : List Stage → List InEvent → AppState → List OutMsg →
    Option (AppState × List OutMsg)
  | [], _, s, acc =>
      let s1 := addLog s "Pipeline completed successfully!" "success"
      some ({ s1 with isAutoRunning := false }, acc)
  | stage :: rest, events, s, acc =>
      let s1 := { s with selectedStage := some stage.id }
      let (s2, msgs) := executeStage true stage s1
      match awaitComplete stage.id events s2 with
      | none => none
      | some (s3, outcome, events') =>
          if outcome = "success" then pipelineLoop rest events' s3 (acc ++ msgs)
          else
            let s4 := addLog s3 ("Pipeline halted at " ++ stage.name) "error"
            some ({ s4 with isAutoRunning := false }, acc ++ msgs)

/-- Source `startFullPipeline()`: with no socket, logs "Not connected" only;
while `isAutoRunning` is already true, returns with no effect at all;
otherwise raises the guard, logs the start notice, and runs the ordered
stage list against the inbound event stream. -/
def startFullPipeline (connected : Bool) (stages : List Stage)
    (events : List InEvent) (s : AppState) : Option (AppState × List OutMsg) :=
  if !connected then some (addLog s "Not connected to backend" "error", [])
  else if s.isAutoRunning then some (s, [])
  else
    let s1 := addLog { s with isAutoRunning := true } "Starting full pipeline..." "system"
    pipelineLoop stages events s1 []

/-- The one-shot correlation observer of `executeStageAndWait`:
`stageId` is the awaited stage, `attached` models the listener being
registered on the socket (`socket.off` clears it), `resolveCount` counts
how many times `resolve` has been called. -/
structure Awaiter where
  stageId : String
  attached : Bool
  resolveCount : Nat
deriving DecidableEq

/-- Delivery of one `execution_complete` event (stage id, status) to the
observer: a detached listener receives nothing; a mismatched stage id
returns without effect; a match detaches the listener and resolves. -/
def handleComplete (a : Awaiter) (ev : String × String) : Awaiter :=
  if a.attached then
    if ev.1 = a.stageId then
      { a with attached := false, resolveCount := a.resolveCount + 1 }
    else a
  else a

/-- The observer freshly attached by `executeStageAndWait(stage)`. -/
def initAwaiter (stageId : String) : Awaiter := ⟨stageId, true, 0⟩

/-- Deliver a whole stream of `execution_complete` events to the observer. -/
def runAwaiter (stageId : String) (events : List (String × String)) : Awaiter :=
  events.foldl handleComplete (initAwaiter stageId)

/-- A burst of `n` consecutive `script_output` events for one stage. -/
def outputBurst (n : Nat) : List InEvent :=
  List.replicate n (InEvent.script_output "get-scripts" "line" "info")

/-- Component state after `execution_started` for a stage followed by `n`
`script_output` events for it, starting from the initial state. -/
def afterOutputs (n : Nat) : AppState :=
  (outputBurst n).foldl handleEvent
    (handleEvent initState (InEvent.execution_started "get-scripts"))

section EntryLemmas

/-- Reading back the key just written. -/
theorem getEntry_setEntry_self (l : StateStore) (k : String) (v : ExecState) :
    getEntry (setEntry l k v) k = some v := by
  induction l with
  | nil => simp [setEntry, getEntry]
  | cons p rest ih =>
      by_cases h : p.1 = k
      · simp [setEntry, getEntry, h]
      · simp [setEntry, getEntry, h, ih]

/-- Writing one key leaves every other key unchanged. -/
theorem getEntry_setEntry_ne (l : StateStore) (k k' : String) (v : ExecState)
    (h : k' ≠ k) : getEntry (setEntry l k v) k' = getEntry l k' := by
  induction l with
  | nil => simp [setEntry, getEntry, Ne.symm h]
  | cons p rest ih =>
      by_cases hk : p.1 = k
      · simp [setEntry, getEntry, hk, Ne.symm h]
      · simp [setEntry, getEntry, hk, ih]

theorem getOrDefault_setEntry_self (l : StateStore) (k : String) (v : ExecState) :
    getOrDefault (setEntry l k v) k = v := by
  simp [getOrDefault, getEntry_setEntry_self]

theorem getOrDefault_setEntry_ne (l : StateStore) (k k' : String) (v : ExecState)
    (h : k' ≠ k) : getOrDefault (setEntry l k v) k' = getOrDefault l k' := by
  simp [getOrDefault, getEntry_setEntry_ne _ _ _ _ h]

end EntryLemmas

/-- Claim C1 evidence: the `execution_complete` handler stores
`progress: 100` together with the non-completed statuses. From the
initial state, an inbound `execution_complete` with status "stopped"
leaves the stage at status `stopped` with progress 100 (not 0), and a
started stage finished with status "failed" is left at `error` with
progress 100 (not 0), while the `execution_error` handler for the same
`error` status stores progress 0. -/
theorem complete_stopped_keeps_full_progress :
    getEntry (handleEvent initState
        (InEvent.execution_complete "get-scripts" "stopped")).executionStates
        "get-scripts" = some ⟨100, Status.stopped⟩
    ∧ getEntry (handleEvent
          (handleEvent initState (InEvent.execution_started "get-scripts"))
          (InEvent.execution_complete "get-scripts" "failed")).executionStates
        "get-scripts" = some ⟨100, Status.error⟩
    ∧ getEntry (handleEvent initState
        (InEvent.execution_error "get-scripts" "boom")).executionStates
        "get-scripts" = some ⟨0, Status.error⟩ := by
  decide

/-- Claim C7: submitting input with empty or whitespace-only text, or
with no pending input request, is a complete no-op: the state is
unchanged (in particular a populated pending-input slot stays populated)
and no message is sent. -/
theorem submitInput_noop (c : Bool) (s : AppState)
    (h : jsTrim s.currentInput = "" ∨ s.waitingForInput = none) :
    handleInputSubmit c s = (s, []) := by
  rcases h with h | h
  · simp [handleInputSubmit, h]
  · unfold handleInputSubmit
    split
    · rw [h]
    · rfl

/-- Claim C7 witness: with pending request open for "get-scripts" and a
whitespace-only input field, submission returns the state unchanged
(slot still populated) and sends nothing. -/
theorem submitInput_noop_witness :
    handleInputSubmit true
        { initState with currentInput := "   ", waitingForInput := some "get-scripts" }
      = ({ initState with currentInput := "   ", waitingForInput := some "get-scripts" }, []) :=
  submitInput_noop true
    { initState with currentInput := "   ", waitingForInput := some "get-scripts" }
    (Or.inl (by decide))

/-- Claim C8: `startFullPipeline` invoked on a connected channel while
the auto-running guard is already set returns immediately: the state is
returned unchanged and no message is emitted, for any stage list and any
pending event stream. -/
theorem runFullPipeline_guarded (stages : List Stage) (events : List InEvent)
    (s : AppState) (h : s.isAutoRunning = true) :
    startFullPipeline true stages events s = some (s, []) := by
  simp [startFullPipeline, h]

/-- Claim C8 witness: a second invocation over the real pipeline catalog
with the guard set is a no-op. -/
theorem runFullPipeline_guarded_witness :
    startFullPipeline true pipelineStages [] { initState with isAutoRunning := true }
      = some ({ initState with isAutoRunning := true }, []) :=
  runFullPipeline_guarded pipelineStages [] { initState with isAutoRunning := true } rfl

/-- Claim C3 counterexample: `shutdownAll` attempted with no open
channel, on a store with one running stage, appends no log entry at all
(and sends nothing), so the failure is not reported locally as the claim
requires. -/
theorem disconnected_shutdown_unreported :
    (shutdownAll false
        { initState with
            executionStates := [ ( "get-scripts", ⟨50, Status.running⟩) ] }).1.logs = []
    ∧ (shutdownAll false
        { initState with
            executionStates := [ ( "get-scripts", ⟨50, Status.running⟩) ] }).2 = [] :=
  ⟨rfl, rfl⟩

/-- Claim C3 (amended): any command attempted while the channel is not
connected fails immediately and locally and sends no protocol message;
`executeStage` reports it with a "Not connected to backend" log entry,
while `stopExecution`, `shutdownAll` and `handleInputSubmit` return with
all state unchanged and no log entry. -/
theorem disconnected_commands_local (s : AppState) (stage : Stage) :
    executeStage false stage s = (addLog s "Not connected to backend" "error", [])
    ∧ stopExecution false s = (s, [])
    ∧ shutdownAll false s = (s, [])
    ∧ handleInputSubmit false s = (s, []) := by
  refine ⟨rfl, ?_, rfl, ?_⟩
  · cases h : s.selectedStage <;> simp [stopExecution, h]
  · simp [handleInputSubmit]

/-- Claim C4 counterexample: after a started stage has received 19
output events its progress is 95; the 20th output event leaves progress
at 95, an increase of 0 rather than the claimed fixed step of 5. -/
theorem output_step_not_exact_at_cap :
    (getOrDefault (afterOutputs 19).executionStates "get-scripts").progress = 95
    ∧ (getOrDefault (afterOutputs 20).executionStates "get-scripts").progress = 95
    ∧ (getOrDefault (afterOutputs 20).executionStates "get-scripts").progress
        ≠ (getOrDefault (afterOutputs 19).executionStates "get-scripts").progress + 5 := by
  decide

/-- Claim C4 (amended): an output event sets the stage's progress to
min(progress + 5, 95): an increase of exactly 5 while progress is at
most 90, saturating at the 95 cap; and any event other than a terminal
`execution_complete` leaves every stage's progress at 95 or below, or
unchanged, so only a terminal event can take progress past the cap. -/
theorem output_bump_saturates (s : AppState) (sid out ty : String) :
    ((getOrDefault (handleEvent s (InEvent.script_output sid out ty)).executionStates
        sid).progress
      = min ((getOrDefault s.executionStates sid).progress + 5) 95)
    ∧ ((getOrDefault (handleEvent s (InEvent.script_output sid out ty)).executionStates
        sid).progress ≤ 95)
    ∧ ((getOrDefault s.executionStates sid).progress ≤ 90 →
        (getOrDefault (handleEvent s (InEvent.script_output sid out ty)).executionStates
          sid).progress = (getOrDefault s.executionStates sid).progress + 5)
    ∧ (∀ (e : InEvent) (sid2 : String),
        (∀ sidc stc, e ≠ InEvent.execution_complete sidc stc) →
        (getOrDefault (handleEvent s e).executionStates sid2).progress ≤ 95
        ∨ (getOrDefault (handleEvent s e).executionStates sid2).progress
            = (getOrDefault s.executionStates sid2).progress) := by
  have hout : (handleEvent s (InEvent.script_output sid out ty)).executionStates
      = setEntry s.executionStates sid
          ⟨min ((getOrDefault s.executionStates sid).progress + 5) 95, Status.running⟩ := by
    simp [handleEvent, updateProgress, addLog]
  refine ⟨?_, ?_, ?_, ?_⟩
  · rw [hout, getOrDefault_setEntry_self]
  · rw [hout, getOrDefault_setEntry_self]
    exact Nat.min_le_right _ _
  · intro hle
    rw [hout, getOrDefault_setEntry_self]
    exact Nat.min_eq_left (by omega)
  · intro e sid2 he
    cases e with
    | connected => right; rfl
    | script_output sidB o t =>
        by_cases hs : sid2 = sidB
        · subst hs
          left
          simp [handleEvent, updateProgress, addLog, getOrDefault_setEntry_self]
        · right
          simp [handleEvent, updateProgress, addLog,
            getOrDefault_setEntry_ne _ _ _ _ hs]
    | request_input sidB p => right; rfl
    | execution_started sidB =>
        by_cases hs : sid2 = sidB
        · subst hs
          left
          simp [handleEvent, addLog, getOrDefault_setEntry_self]
        · right
          simp [handleEvent, addLog, getOrDefault_setEntry_ne _ _ _ _ hs]
    | execution_complete sidB st => exact absurd rfl (he sidB st)
    | execution_error sidB m =>
        by_cases hs : sid2 = sidB
        · subst hs
          left
          simp [handleEvent, addLog, getOrDefault_setEntry_self]
        · right
          simp [handleEvent, addLog, getOrDefault_setEntry_ne _ _ _ _ hs]
    | input_sent sidB i => right; rfl

/-- Claim C4 witness: for a stage at progress 50, one output event moves
it to exactly progress 50 + 5. -/
theorem output_bump_saturates_witness :
    (getOrDefault (handleEvent
        { initState with
            executionStates := [ ( "get-scripts", ⟨50, Status.running⟩) ] }
        (InEvent.script_output "get-scripts" "line" "info")).executionStates
      "get-scripts").progress
      = (getOrDefault
          ({ initState with
              executionStates :=
                [ ( "get-scripts", ⟨50, Status.running⟩) ] } : AppState).executionStates
          "get-scripts").progress + 5 :=
  (output_bump_saturates
      { initState with
          executionStates := [ ( "get-scripts", ⟨50, Status.running⟩) ] }
      "get-scripts" "line" "info").2.2.1 (by decide)

/-- Claim C10: an output event for a stage unconditionally sets its
status to running with saturated progress, creating the store entry when
absent; in particular a completed stage at progress 100 moves back to
running with progress capped at 95. -/
theorem output_overrides_terminal (s : AppState) (sid out ty : String) :
    getEntry (handleEvent s (InEvent.script_output sid out ty)).executionStates sid
      = some ⟨min ((getOrDefault s.executionStates sid).progress + 5) 95, Status.running⟩
    ∧ (getOrDefault s.executionStates sid = ⟨100, Status.completed⟩ →
        getEntry (handleEvent s (InEvent.script_output sid out ty)).executionStates sid
          = some ⟨95, Status.running⟩) := by
  constructor
  · simp [handleEvent, updateProgress, addLog, getEntry_setEntry_self]
  · intro h
    simp [handleEvent, updateProgress, addLog, h, getEntry_setEntry_self]

/-- Claim C10 witness: a completed stage at progress 100 receiving an
output event is moved back to running with progress 95. -/
theorem output_overrides_terminal_witness :
    getEntry (handleEvent
        { initState with
            executionStates := [ ( "get-scripts", ⟨100, Status.completed⟩) ] }
        (InEvent.script_output "get-scripts" "line" "info")).executionStates
      "get-scripts" = some ⟨95, Status.running⟩ :=
  (output_overrides_terminal
      { initState with
          executionStates := [ ( "get-scripts", ⟨100, Status.completed⟩) ] }
      "get-scripts" "line" "info").2 (by decide)

/-- Claim C6: `stopExecution` on a connected channel with a selected
stage emits exactly one stop message for that stage, ends with the log
sequence empty and the pending-input slot cleared, and the selected
stage at stopped/0 — all computed locally, with no inbound event
consumed. -/
theorem stopStage_optimistic (s : AppState) (sid : String)
    (h : s.selectedStage = some sid) :
    (stopExecution true s).2 = [OutMsg.stop_stage sid]
    ∧ (stopExecution true s).1.logs = []
    ∧ (stopExecution true s).1.waitingForInput = none
    ∧ getEntry (stopExecution true s).1.executionStates sid
        = some ⟨0, Status.stopped⟩ := by
  simp [stopExecution, h, getEntry_setEntry_self]

/-- Claim C6 witness: stopping the selected running stage from a state
with logs and a pending input request. -/
theorem stopStage_optimistic_witness :
    (stopExecution true
        { initState with
            selectedStage := some "get-scripts",
            logs := [⟨ "old line", "info"⟩],
            executionStates := [ ( "get-scripts", ⟨40, Status.running⟩) ],
            waitingForInput := some "get-scripts" }).2 = [OutMsg.stop_stage "get-scripts"]
    ∧ (stopExecution true
        { initState with
            selectedStage := some "get-scripts",
            logs := [⟨ "old line", "info"⟩],
            executionStates := [ ( "get-scripts", ⟨40, Status.running⟩) ],
            waitingForInput := some "get-scripts" }).1.logs = []
    ∧ (stopExecution true
        { initState with
            selectedStage := some "get-scripts",
            logs := [⟨ "old line", "info"⟩],
            executionStates := [ ( "get-scripts", ⟨40, Status.running⟩) ],
            waitingForInput := some "get-scripts" }).1.waitingForInput = none
    ∧ getEntry (stopExecution true
        { initState with
            selectedStage := some "get-scripts",
            logs := [⟨ "old line", "info"⟩],
            executionStates := [ ( "get-scripts", ⟨40, Status.running⟩) ],
            waitingForInput := some "get-scripts" }).1.executionStates "get-scripts"
        = some ⟨0, Status.stopped⟩ :=
  stopStage_optimistic
    { initState with
        selectedStage := some "get-scripts",
        logs := [⟨ "old line", "info"⟩],
        executionStates := [ ( "get-scripts", ⟨40, Status.running⟩) ],
        waitingForInput := some "get-scripts" } "get-scripts" rfl

/-- A detached observer ignores any further event. -/
theorem handleComplete_detached (a : Awaiter) (ev : String × String)
    (h : a.attached = false) : handleComplete a ev = a := by
  simp [handleComplete, h]

/-- A detached observer ignores a whole stream of events. -/
theorem foldl_handleComplete_detached (evs : List (String × String)) (a : Awaiter)
    (h : a.attached = false) : evs.foldl handleComplete a = a := by
  induction evs with
  | nil => rfl
  | cons e evs ih => rw [List.foldl_cons, handleComplete_detached a e h]; exact ih

/-- Closed form of an observer run: the observer ends detached having
resolved once when some event of the stream matches the awaited stage
id, and is untouched otherwise. -/
theorem runAwaiter_eq (sid : String) (evs : List (String × String)) :
    runAwaiter sid evs =
      if evs.any (fun e => e.1 = sid) then ⟨sid, false, 1⟩ else ⟨sid, true, 0⟩ := by
  unfold runAwaiter
  induction evs with
  | nil => rfl
  | cons e evs ih =>
      rw [List.foldl_cons]
      by_cases h : e.1 = sid
      · rw [show handleComplete (initAwaiter sid) e = ⟨sid, false, 1⟩ from by
            simp [handleComplete, initAwaiter, h]]
        rw [foldl_handleComplete_detached evs _ rfl, List.any_cons,
          decide_eq_true h, Bool.true_or]
        simp
      · rw [show handleComplete (initAwaiter sid) e = initAwaiter sid from by
            simp [handleComplete, initAwaiter, h]]
        rw [ih, List.any_cons, decide_eq_false h, Bool.false_or]

/-- Claim C9: the one-shot observer of `executeStageAndWait` resolves at
most once; it resolves exactly once iff a terminal event for the awaited
stage id arrives, and it is detached once resolved; a terminal event for
a different stage id leaves any observer unchanged (neither resolves nor
detaches it), and a detached observer is never invoked again. -/
theorem awaiter_one_shot (sid : String) (evs : List (String × String)) :
    (runAwaiter sid evs).resolveCount ≤ 1
    ∧ ((runAwaiter sid evs).resolveCount = 1 ↔ evs.any (fun e => e.1 = sid) = true)
    ∧ ((runAwaiter sid evs).resolveCount = 1 → (runAwaiter sid evs).attached = false)
    ∧ (∀ (a : Awaiter) (ev : String × String), ev.1 ≠ a.stageId →
        handleComplete a ev = a)
    ∧ (∀ (a : Awaiter) (ev : String × String), a.attached = false →
        handleComplete a ev = a) := by
  refine ⟨?_, ?_, ?_,
    fun a ev hev => by simp [handleComplete, hev],
    fun a ev ha => by simp [handleComplete, ha]⟩ <;>
    rw [runAwaiter_eq] <;>
    by_cases h : evs.any (fun e => e.1 = sid) = true <;> simp [h]

/-- Claim C9 witness: awaiting "get-scripts" over a stream whose first
terminal event is for another stage: the observer resolves exactly once
and ends detached. -/
theorem awaiter_one_shot_witness :
    (runAwaiter "get-scripts"
        [ ( "srt-generator", "success"), ( "get-scripts", "failed"),
          ( "get-scripts", "success") ]).resolveCount = 1
    ∧ (runAwaiter "get-scripts"
        [ ( "srt-generator", "success"), ( "get-scripts", "failed"),
          ( "get-scripts", "success") ]).attached = false := by
  refine ⟨(awaiter_one_shot "get-scripts" _).2.1.mpr (by decide), ?_⟩
  exact (awaiter_one_shot "get-scripts"
      [ ( "srt-generator", "success"), ( "get-scripts", "failed"),
        ( "get-scripts", "success") ]).2.2.1
    ((awaiter_one_shot "get-scripts" _).2.1.mpr (by decide))

/-- Claim C5: `shutdownAll` on a connected channel with a store holding
running X, completed Y, running Z sends exactly the two stop messages
for X and Z, sets X and Z to stopped/0, leaves Y completed, and clears
the pending-input slot and the auto-running guard; with zero running
stages it appends exactly one no-op log entry, sends no message and
changes nothing else. -/
theorem shutdownAll_spec :
    (∀ (x y z : String) (px pz : Nat) (s : AppState),
      x ≠ y → x ≠ z → y ≠ z →
      s.executionStates =
        [ (x, ⟨px, Status.running⟩), (y, ⟨100, Status.completed⟩),
          (z, ⟨pz, Status.running⟩) ] →
      (shutdownAll true s).2 = [OutMsg.stop_stage x, OutMsg.stop_stage z]
      ∧ getEntry (shutdownAll true s).1.executionStates x = some ⟨0, Status.stopped⟩
      ∧ getEntry (shutdownAll true s).1.executionStates z = some ⟨0, Status.stopped⟩
      ∧ getEntry (shutdownAll true s).1.executionStates y
          = some ⟨100, Status.completed⟩
      ∧ (shutdownAll true s).1.waitingForInput = none
      ∧ (shutdownAll true s).1.isAutoRunning = false)
    ∧ (∀ s : AppState,
        (∀ p ∈ s.executionStates, p.2.status ≠ Status.running) →
        shutdownAll true s = (addLog s "No running stages to stop." "system", [])) := by
  constructor
  · intro x y z px pz s hxy hxz hyz hes
    have h1 : s.executionStates.filter (fun p => p.2.status = Status.running)
        = [ (x, ⟨px, Status.running⟩), (z, ⟨pz, Status.running⟩) ] := by
      rw [hes]; rfl
    have hshut : shutdownAll true s =
        ({ s with
            logs := s.logs ++ [⟨ "Shutdown requested for 2 stage(s).", "system"⟩],
            waitingForInput := none,
            isAutoRunning := false,
            executionStates :=
              setEntry (setEntry s.executionStates x ⟨0, Status.stopped⟩) z
                ⟨0, Status.stopped⟩ },
         [OutMsg.stop_stage x, OutMsg.stop_stage z]) := by
      simp only [shutdownAll, h1, Bool.not_true, Bool.false_eq_true, if_false,
        List.map_cons, List.map_nil, List.isEmpty_cons, List.length_cons,
        List.length_nil, List.foldl_cons, List.foldl_nil, addLog]
      norm_num
      rfl
    rw [hshut]
    refine ⟨rfl, ?_, ?_, ?_, rfl, rfl⟩
    · rw [getEntry_setEntry_ne _ _ _ _ hxz, getEntry_setEntry_self]
    · rw [getEntry_setEntry_self]
    · rw [getEntry_setEntry_ne _ _ _ _ hyz,
        getEntry_setEntry_ne _ _ _ _ (Ne.symm hxy), hes]
      simp [getEntry, hxy]
  · intro s hnone
    have h1 : s.executionStates.filter (fun p => p.2.status = Status.running) = [] :=
      List.filter_eq_nil_iff.mpr (fun p hp => by simpa using hnone p hp)
    simp [shutdownAll, h1]

/-- Claim C5 witness: the concrete store with two running stages and a
completed one, and the no-running case from the initial state. -/
theorem shutdownAll_spec_witness :
    (shutdownAll true
        { initState with
            executionStates :=
              [ ( "get-scripts", ⟨30, Status.running⟩),
                ( "srt-generator", ⟨100, Status.completed⟩),
                ( "image-render", ⟨10, Status.running⟩) ],
            waitingForInput := some "get-scripts",
            isAutoRunning := true }).2
      = [OutMsg.stop_stage "get-scripts", OutMsg.stop_stage "image-render"]
    ∧ shutdownAll true initState
        = (addLog initState "No running stages to stop." "system", []) := by
  refine ⟨(shutdownAll_spec.1 "get-scripts" "srt-generator" "image-render" 30 10
      { initState with
          executionStates :=
            [ ( "get-scripts", ⟨30, Status.running⟩),
              ( "srt-generator", ⟨100, Status.completed⟩),
              ( "image-render", ⟨10, Status.running⟩) ],
          waitingForInput := some "get-scripts",
          isAutoRunning := true }
      (by decide) (by decide) (by decide) rfl).1, ?_⟩
  exact shutdownAll_spec.2 initState (by intro p hp; simp [initState] at hp)

/-- Claim C2: running the full pipeline over ordered stages [A, B, C]
where A's terminal outcome is success and B's is a failure outcome
(neither success nor stopped): exactly the execute messages for A and B
are sent — never one for C — A ends completed, B ends error, C's store
entry is untouched, a "Pipeline halted at B" log entry is appended, and
the auto-running guard is cleared on exit. -/
theorem pipeline_halts_on_failure (A B C : Stage) (f : String) (s : AppState)
    (hBA : B.id ≠ A.id) (hCA : C.id ≠ A.id) (hCB : C.id ≠ B.id)
    (hf1 : f ≠ "success") (hf2 : f ≠ "stopped") (hAuto : s.isAutoRunning = false) :
    startFullPipeline true [A, B, C]
        [InEvent.execution_complete A.id "success",
         InEvent.execution_complete B.id f] s
      = some
        ({ s with
            selectedStage := some B.id,
            logs := s.logs ++
              [⟨ "Starting full pipeline...", "system"⟩,
               ⟨ "Execution completed successfully!", "success"⟩,
               ⟨ "Execution failed!", "error"⟩,
               ⟨ "Pipeline halted at " ++ B.name, "error"⟩],
            executionStates :=
              setEntry (setEntry s.executionStates A.id ⟨100, Status.completed⟩)
                B.id ⟨100, Status.error⟩,
            isAutoRunning := false },
         [OutMsg.execute_stage A.id A.file, OutMsg.execute_stage B.id B.file])
    ∧ getEntry
        (setEntry (setEntry s.executionStates A.id ⟨100, Status.completed⟩)
          B.id ⟨100, Status.error⟩) A.id = some ⟨100, Status.completed⟩
    ∧ getEntry
        (setEntry (setEntry s.executionStates A.id ⟨100, Status.completed⟩)
          B.id ⟨100, Status.error⟩) B.id = some ⟨100, Status.error⟩
    ∧ getEntry
        (setEntry (setEntry s.executionStates A.id ⟨100, Status.completed⟩)
          B.id ⟨100, Status.error⟩) C.id = getEntry s.executionStates C.id
    ∧ (∀ sf : String,
        OutMsg.execute_stage C.id sf ∉
          [OutMsg.execute_stage A.id A.file, OutMsg.execute_stage B.id B.file]) := by
  refine ⟨?_, ?_, ?_, ?_, ?_⟩
  · simp only [startFullPipeline, Bool.not_true, hAuto, pipelineLoop, executeStage,
      awaitComplete, handleEvent, addLog, Bool.false_eq_true, if_false]
    simp [awaitComplete, handleEvent, addLog, hf1, hf2, List.append_assoc]
  · rw [getEntry_setEntry_ne _ _ _ _ (Ne.symm hBA), getEntry_setEntry_self]
  · rw [getEntry_setEntry_self]
  · rw [getEntry_setEntry_ne _ _ _ _ hCB, getEntry_setEntry_ne _ _ _ _ hCA]
  · intro sf
    simp [hCA, hCB]

/-- Claim C2 witness: the first three catalog stages with outcomes
success for the first and "failed" for the second, from the initial
state. -/
theorem pipeline_halts_on_failure_witness :
    startFullPipeline true
        [ ⟨ "get-scripts", "Get Scripts", "get_scripts.py"⟩,
          ⟨ "srt-generator", "SRT Generator", "srt_generator.py"⟩,
          ⟨ "image-suggestions", "Image Suggestions", "suggestion_generator.py"⟩ ]
        [ InEvent.execution_complete "get-scripts" "success",
          InEvent.execution_complete "srt-generator" "failed" ] initState
      = some
        ({ initState with
            selectedStage := some "srt-generator",
            logs :=
              [⟨ "Starting full pipeline...", "system"⟩,
               ⟨ "Execution completed successfully!", "success"⟩,
               ⟨ "Execution failed!", "error"⟩,
               ⟨ "Pipeline halted at SRT Generator", "error"⟩],
            executionStates :=
              [ ( "get-scripts", ⟨100, Status.completed⟩),
                ( "srt-generator", ⟨100, Status.error⟩) ],
            isAutoRunning := false },
         [OutMsg.execute_stage "get-scripts" "get_scripts.py",
          OutMsg.execute_stage "srt-generator" "srt_generator.py"]) := by
  have h := (pipeline_halts_on_failure
      ⟨ "get-scripts", "Get Scripts", "get_scripts.py"⟩
      ⟨ "srt-generator", "SRT Generator", "srt_generator.py"⟩
      ⟨ "image-suggestions", "Image Suggestions", "suggestion_generator.py"⟩
      "failed" initState (by decide) (by decide) (by decide) (by decide)
      (by decide) rfl).1
  exact h.trans (by decide)

end AutoFX
